import Mathlib

/-!
Shallow embedding of `src/plot3dshadows/plot3dshadows.py` (class `Plot3DShadows`).

Numbers are modelled as rationals; keyword-argument dictionaries are modelled as
insertion-ordered association lists, with `dset` updating an existing key in place
(keeping its position) and appending a fresh key at the end, matching Python dict
semantics. Draw calls issued to the matplotlib axis (`ax.scatter`, `ax.plot`) are
recorded explicitly as `DrawCall` values. Exceptions (`ValueError`) are modelled
with `Except String`.
-/

/-- Values stored in a keyword-argument dictionary: numbers or strings.
Non-numeric alpha values would make the Python code raise inside numpy;
the claims only involve numeric alphas, so `getAlphaNum` is total with
non-numeric entries falling back to the 1.0 default. -/
inductive KwVal
| num (q : ℚ)
| str (s : String)
deriving DecidableEq, Repr

abbrev Kwargs := List (String × KwVal)

abbrev StrDict := List (String × String)

/-- Python `d.get(k)` / `d[k]` lookup on an insertion-ordered dict. -/
def dget {α : Type} (d : List (String × α)) (k : String) : Option α :=
  (d.find? (fun p => p.1 == k)).map (fun p => p.2)

/-- Python `d.get(k, dflt)`. -/
def dgetD {α : Type} (d : List (String × α)) (k : String) (dflt : α) : α :=
  (dget d k).getD dflt

/-- Python `d[k] = v`: replace the value in place if the key exists, else append. -/
def dset {α : Type} (d : List (String × α)) (k : String) (v : α) : List (String × α) :=
  if d.any (fun p => p.1 == k) then
    d.map (fun p => if p.1 == k then (k, v) else p)
  else
    d ++ [(k, v)]

/-- Python `d.pop(k)` (the removal part; the returned value is read with `dget`). -/
def dpop {α : Type} (d : List (String × α)) (k : String) : List (String × α) :=
  d.filter (fun p => p.1 != k)

/-- Python `d.update(other)`: set each pair of `other` in iteration order. -/
def dupdate {α : Type} (d other : List (String × α)) : List (String × α) :=
  other.foldl (fun acc p => dset acc p.1 p.2) d

/-- One stored submission record, as appended to `scatter_data` / `plot_data`:
the dict literal with keys x, y, z, shadow_alpha_ratio, kwargs. `np.array` of a
coordinate list and `kwargs.copy()` are element-wise copies, so the stored
fields are the submitted values. -/
structure DataRec where
  x : List ℚ
  y : List ℚ
  z : List ℚ
  shadow_alpha_ratio : Option ℚ
  kwargs : Kwargs
deriving DecidableEq, Repr

/-- Which drawing primitive of the external axis a draw call goes to. -/
inductive Prim
| scatterP
| plotP
deriving DecidableEq, Repr

/-- One draw call issued to the external matplotlib axis. -/
structure DrawCall where
  prim : Prim
  x : List ℚ
  y : List ℚ
  z : List ℚ
  kwargs : Kwargs
deriving DecidableEq, Repr

/-- The mutable state of a `Plot3DShadows` instance (the external axis itself is
not part of the state; its limits are passed to `plot_shadows` explicitly). -/
structure Plot3DShadows where
  shadow_alpha_ratio : ℚ
  shadow_planes : List String
  shadow_positions : StrDict
  scatter_data : List DataRec
  plot_data : List DataRec
deriving DecidableEq, Repr

/-- Current axis limits, read by `plot_shadows` from the external axis. -/
structure AxisState where
  x_min : ℚ
  x_max : ℚ
  y_min : ℚ
  y_max : ℚ
  z_min : ℚ
  z_max : ℚ
deriving DecidableEq, Repr

def valid_planes : List String := ["xy", "xz", "yz"]

def valid_positions : List String := ["min", "max"]

/-- `__init__`: store the arguments, then validate each shadow plane name
against `valid_planes` and each shadow position value against
`valid_positions`; a failed check raises `ValueError`, so the object is never
obtained by the caller. Position-map keys are not validated anywhere. -/
def construct (shadow_alpha_ratio : ℚ) (shadow_planes : List String)
    (shadow_positions : StrDict) : Except String Plot3DShadows :=
  match shadow_planes.find? (fun p => !(decide (p ∈ valid_planes))) with
  | some _ => Except.error "Invalid shadow plane"
  | none =>
    match shadow_positions.find? (fun pr => !(decide (pr.2 ∈ valid_positions))) with
    | some _ => Except.error "Invalid shadow position"
    | none =>
      Except.ok ⟨shadow_alpha_ratio, shadow_planes, shadow_positions, [], []⟩

/-- `scatter`: draw the points on the axis unmodified, then append a record. -/
def Plot3DShadows.scatter (st : Plot3DShadows) (x y z : List ℚ)
    (shadow_alpha_ratio : Option ℚ) (kwargs : Kwargs) : Plot3DShadows × DrawCall :=
  (⟨st.shadow_alpha_ratio, st.shadow_planes, st.shadow_positions,
    st.scatter_data ++ [⟨x, y, z, shadow_alpha_ratio, kwargs⟩], st.plot_data⟩,
   ⟨Prim.scatterP, x, y, z, kwargs⟩)

/-- `plot`: draw the line on the axis unmodified, then append a record. -/
def Plot3DShadows.plot (st : Plot3DShadows) (x y z : List ℚ)
    (shadow_alpha_ratio : Option ℚ) (kwargs : Kwargs) : Plot3DShadows × DrawCall :=
  (⟨st.shadow_alpha_ratio, st.shadow_planes, st.shadow_positions,
    st.scatter_data, st.plot_data ++ [⟨x, y, z, shadow_alpha_ratio, kwargs⟩]⟩,
   ⟨Prim.plotP, x, y, z, kwargs⟩)

/-- `np.full_like(v, c)`: a constant array of the same length as `v`. -/
def full_like (v : List ℚ) (c : ℚ) : List ℚ :=
  v.map (fun _ => c)

/-- `data['kwargs'].get('alpha', 1.0)` restricted to numeric alphas. -/
def getAlphaNum (d : Kwargs) : ℚ :=
  match dget d "alpha" with
  | some (KwVal.num q) => q
  | _ => 1

/-- The `plane_configs` entry for `plane` applied to the coordinate arrays:
two arrays pass through, the third is clamped to the min or max limit of the
orthogonal axis according to `shadow_positions.get(plane, 'min')`. -/
def applyPlane (st : Plot3DShadows) (ax : AxisState) (plane : String)
    (x y z : List ℚ) : List ℚ × List ℚ × List ℚ :=
  if plane == "xy" then
    (x, y, full_like z
      (if dgetD st.shadow_positions "xy" "min" == "min" then ax.z_min else ax.z_max))
  else if plane == "xz" then
    (x, full_like y
      (if dgetD st.shadow_positions "xz" "min" == "min" then ax.y_min else ax.y_max), z)
  else
    (full_like x
      (if dgetD st.shadow_positions "yz" "min" == "min" then ax.x_min else ax.x_max), y, z)

/-- `prepare_shadow_kwargs`: copy the stored kwargs, replace alpha by
original alpha times the effective ratio, then fold a `c` key into `color`
(defaulting `color` to gray when no color is present). -/
def prepare_shadow_kwargs (st : Plot3DShadows) (d : DataRec) : Kwargs :=
  let shadow_kwargs := d.kwargs
  let original_alpha := getAlphaNum d.kwargs
  let r := d.shadow_alpha_ratio.getD st.shadow_alpha_ratio
  let shadow_alpha := original_alpha * r
  let shadow_kwargs := dset shadow_kwargs "alpha" (KwVal.num shadow_alpha)
  match dget shadow_kwargs "c" with
  | some cv => dset (dpop shadow_kwargs "c") "color" cv
  | none => dset shadow_kwargs "color" (dgetD shadow_kwargs "color" (KwVal.str "gray"))

/-- The draw call issued for one submission on one plane. -/
def mkShadowCall (st : Plot3DShadows) (ax : AxisState) (d : DataRec) (prim : Prim)
    (sk : Kwargs) (plane : String) : DrawCall :=
  let t := applyPlane st ax plane d.x d.y d.z
  ⟨prim, t.1, t.2.1, t.2.2, sk⟩

/-- `plot_shadow_for_data`: prepare the shadow kwargs once, then for each plane
of `shadow_planes` in list order, skipping names absent from `plane_configs`
(whose key set is `valid_planes`), issue one draw call. -/
def plot_shadow_for_data (st : Plot3DShadows) (ax : AxisState) (d : DataRec)
    (prim : Prim) : List DrawCall :=
  let sk := prepare_shadow_kwargs st d
  (st.shadow_planes.filter (fun p => decide (p ∈ valid_planes))).map
    (mkShadowCall st ax d prim sk)

/-- One iteration of the loops at the end of `plot_shadows`: the instance state
is threaded unchanged (the method assigns no attribute) and the draw calls of
the current submission are appended. -/
def shadowStep (ax : AxisState) (acc : Plot3DShadows × List DrawCall)
    (item : DataRec × Prim) : Plot3DShadows × List DrawCall :=
  (acc.1, acc.2 ++ plot_shadow_for_data acc.1 ax item.1 item.2)

/-- `plot_shadows`: read the current limits, then draw shadows for every
scatter submission in order, then every plot submission in order. Returns the
instance state after the call together with the issued draw calls. -/
def plot_shadows (st : Plot3DShadows) (ax : AxisState) :
    Plot3DShadows × List DrawCall :=
  (st.scatter_data.map (fun d => (d, Prim.scatterP)) ++
   st.plot_data.map (fun d => (d, Prim.plotP))).foldl (shadowStep ax) (st, [])

/-- `set_shadow_positions`: validate every value of the argument against
`valid_positions` before touching the state; on success merge with
`dict.update`. Keys are not validated. -/
def set_shadow_positions (st : Plot3DShadows) (positions : StrDict) :
    Except String Plot3DShadows :=
  match positions.find? (fun pr => !(decide (pr.2 ∈ valid_positions))) with
  | some _ => Except.error "Invalid shadow position"
  | none =>
    Except.ok ⟨st.shadow_alpha_ratio, st.shadow_planes,
      dupdate st.shadow_positions positions, st.scatter_data, st.plot_data⟩

/-- The default value of the `shadow_positions` parameter of `__init__`. -/
def default_shadow_positions : StrDict := [("xy", "min"), ("xz", "min"), ("yz", "min")]

def defaultProj : Plot3DShadows :=
  ⟨3/10, ["xy", "xz", "yz"], default_shadow_positions, [], []⟩

/-!
Reference-semantics model of the `shadow_positions` dictionary. In Python the
default value of the `shadow_positions` parameter is a single dict object
created once when `__init__` is defined; every default construction binds
`self.shadow_positions` to that same object, and `set_shadow_positions`
mutates it in place through `dict.update`. `PyWorld` is the heap of
position-dict objects, with the shared default dict stored in cell 0.
-/

structure PyWorld where
  cells : List StrDict
deriving DecidableEq, Repr

/-- The heap at interpreter start: only the default-argument dict exists. -/
def initWorld : PyWorld := ⟨[default_shadow_positions]⟩

/-- A projector instance whose `shadow_positions` attribute is a reference
into the heap rather than a value. -/
structure ProjRef where
  shadow_alpha_ratio : ℚ
  shadow_planes : List String
  posCell : Nat
  scatter_data : List DataRec
  plot_data : List DataRec
deriving DecidableEq, Repr

/-- `Plot3DShadows(ax)` with every parameter left at its default: the new
instance aliases the shared default positions dict in cell 0. Validation of
the default arguments always succeeds, so no `Except` is needed here. -/
def constructDefaultRef : ProjRef :=
  ⟨3/10, ["xy", "xz", "yz"], 0, [], []⟩

/-- Reading `self.shadow_positions` dereferences the cell. -/
def readPositions (w : PyWorld) (p : ProjRef) : StrDict :=
  w.cells.getD p.posCell []

/-- `set_shadow_positions` under reference semantics: validate the values,
then mutate the referenced dict in place with `dict.update`. -/
def set_shadow_positions_ref (w : PyWorld) (p : ProjRef) (positions : StrDict) :
    Except String PyWorld :=
  match positions.find? (fun pr => !(decide (pr.2 ∈ valid_positions))) with
  | some _ => Except.error "Invalid shadow position"
  | none =>
    Except.ok ⟨w.cells.set p.posCell (dupdate (readPositions w p) positions)⟩

/-! Concrete instances used by counterexamples and witnesses. -/

/-- A symmetric unit box of axis limits. -/
def axSym : AxisState := ⟨0, 1, 0, 1, 0, 1⟩

/-- A projector constructed with planes listed as yz, xy (not canonical order). -/
def c1Base : Plot3DShadows :=
  ⟨3/10, ["yz", "xy"], default_shadow_positions, [], []⟩

/-- `c1Base` after one scatter submission of the single point (2, 3, 4). -/
def c1State : Plot3DShadows := (c1Base.scatter [2] [3] [4] none []).1

/-- The shadow kwargs derived from an empty style: alpha 1.0 times ratio 0.3,
and the gray color default. -/
def c1Kwargs : Kwargs := [("alpha", KwVal.num (3/10)), ("color", KwVal.str "gray")]

/-- Whether an operation completed without raising. -/
def exceptIsOk {ε α : Type} : Except ε α → Bool
  | Except.ok _ => true
  | Except.error _ => false

/-- The first projector constructed as `Plot3DShadows(ax)`, all defaults. -/
def firstDefaultProjRef : ProjRef := constructDefaultRef

/-- A second, separately constructed `Plot3DShadows(ax2)`, all defaults; it
receives the same default positions dict object (heap cell 0). -/
def secondDefaultProjRef : ProjRef := constructDefaultRef

/-- Axis limits of -5 to 5 on all three axes. -/
def ax55 : AxisState := ⟨-5, 5, -5, 5, -5, 5⟩

/-- A projector constructed with the single plane xy and default positions. -/
def c4Base : Plot3DShadows := ⟨3/10, ["xy"], default_shadow_positions, [], []⟩

/-- `c4Base` after submitting the one-point path (0, 0, 0). -/
def c4State : Plot3DShadows := (c4Base.plot [0] [0] [0] none []).1

/-- A default projector holding one scatter and one plot submission. -/
def demoState : Plot3DShadows :=
  ((defaultProj.scatter [1] [2] [3] none []).1.plot [4] [5] [6] none []).1

/-! Dictionary lemmas. -/

theorem dget_dset_self {α : Type} (d : List (String × α)) (k : String) (v : α) :
    dget (dset d k v) k = some v := by
  unfold dget dset
  by_cases h : d.any (fun p => p.1 == k)
  · simp only [h, if_true, List.find?_map]
    have hfun : ((fun p : String × α => p.1 == k) ∘
        (fun p => if p.1 == k then (k, v) else p)) = fun p : String × α => p.1 == k := by
      funext p
      by_cases hk : p.1 == k
      · simp [Function.comp, hk]
      · simp [Function.comp, hk]
    rw [hfun]
    cases hfind : d.find? (fun p : String × α => p.1 == k) with
    | none =>
      rcases List.any_eq_true.mp h with ⟨a, ha, hpa⟩
      exact absurd hpa (List.find?_eq_none.mp hfind a ha)
    | some b =>
      have hbk : b.1 = k := by simpa using List.find?_some hfind
      simp [hbk]
  · rw [if_neg h, List.find?_append]
    have hnone : d.find? (fun p : String × α => p.1 == k) = none :=
      List.find?_eq_none.mpr (by
        intro x hx hpx
        exact h (List.any_eq_true.mpr ⟨x, hx, hpx⟩))
    rw [hnone]
    simp [List.find?]

theorem dget_dset_ne {α : Type} (d : List (String × α)) (k k2 : String) (v : α)
    (hne : k2 ≠ k) : dget (dset d k v) k2 = dget d k2 := by
  unfold dget dset
  by_cases h : d.any (fun p => p.1 == k)
  · simp only [h, if_true, List.find?_map]
    have hfun : ((fun p : String × α => p.1 == k2) ∘
        (fun p => if p.1 == k then (k, v) else p)) = fun p : String × α => p.1 == k2 := by
      funext p
      by_cases hk : p.1 == k
      · have hpk : p.1 = k := by simpa using hk
        have h1 : (p.1 == k2) = false := by
          rw [hpk]; exact beq_eq_false_iff_ne.mpr (Ne.symm hne)
        have h2 : (k == k2) = false := beq_eq_false_iff_ne.mpr (Ne.symm hne)
        simp [Function.comp, hk, h1, h2]
      · simp [Function.comp, hk]
    rw [hfun]
    cases hfind : d.find? (fun p : String × α => p.1 == k2) with
    | none => rfl
    | some a =>
      have ha : a.1 = k2 := by simpa using List.find?_some hfind
      have hne2 : a.1 ≠ k := by rw [ha]; exact hne
      simp [hne2]
  · rw [if_neg h, List.find?_append]
    have hone : List.find? (fun p : String × α => p.1 == k2) [(k, v)] = none := by
      simp [List.find?, beq_eq_false_iff_ne.mpr (Ne.symm hne)]
    rw [hone]
    cases d.find? (fun p : String × α => p.1 == k2) with
    | none => rfl
    | some a => rfl

theorem dget_dupdate_not_mem {α : Type} (d ps : List (String × α)) (k : String)
    (h : k ∉ ps.map Prod.fst) : dget (dupdate d ps) k = dget d k := by
  induction ps generalizing d with
  | nil => rfl
  | cons hd tl ih =>
    simp only [List.map_cons, List.mem_cons, not_or] at h
    unfold dupdate
    simp only [List.foldl_cons]
    have : dget (dupdate (dset d hd.1 hd.2) tl) k = dget (dset d hd.1 hd.2) k :=
      ih (dset d hd.1 hd.2) h.2
    unfold dupdate at this
    rw [this]
    exact dget_dset_ne d hd.1 k hd.2 h.1

/-! Unfolding the shadow-drawing loops. -/

theorem foldl_shadowStep (ax : AxisState) (items : List (DataRec × Prim))
    (st : Plot3DShadows) (acc : List DrawCall) :
    items.foldl (shadowStep ax) (st, acc) =
      (st, acc ++ (items.map (fun it => plot_shadow_for_data st ax it.1 it.2)).flatten) := by
  induction items generalizing acc with
  | nil => simp
  | cons hd tl ih =>
    simp only [List.foldl_cons, shadowStep, List.map_cons, List.flatten_cons]
    rw [ih]
    simp [List.append_assoc]

theorem plot_shadows_snd (st : Plot3DShadows) (ax : AxisState) :
    (plot_shadows st ax).2 =
      (st.scatter_data.map (fun d => plot_shadow_for_data st ax d Prim.scatterP)).flatten ++
      (st.plot_data.map (fun d => plot_shadow_for_data st ax d Prim.plotP)).flatten := by
  unfold plot_shadows
  rw [foldl_shadowStep]
  simp only [List.map_append, List.map_map, List.flatten_append, List.nil_append]
  rfl

/-- A submission whose planes all pass the `plane_configs` membership test is
drawn once per entry of `shadow_planes`, in list order. -/
theorem planes_all_valid_draws (st : Plot3DShadows) (ax : AxisState) (d : DataRec)
    (prim : Prim) (h : ∀ p ∈ st.shadow_planes, p ∈ valid_planes) :
    plot_shadow_for_data st ax d prim =
      st.shadow_planes.map (mkShadowCall st ax d prim (prepare_shadow_kwargs st d)) := by
  unfold plot_shadow_for_data
  have hfilter : st.shadow_planes.filter (fun p => decide (p ∈ valid_planes)) =
      st.shadow_planes :=
    List.filter_eq_self.mpr (fun a ha => by simpa using h a ha)
  rw [hfilter]

/-- Claim C1, counterexample: a projector constructed with the plane list
yz, xy (more than one plane) draws the yz shadow of its one submission first
and the xy shadow second, so the draw order follows the constructed list, not
the canonical order xy before yz that the claim requires. The x-coordinate
arrays of the issued calls are [0] (yz clamp) then [2] (pass-through), while
the canonical order would give [2] then [0]. -/
theorem C1_counterexample_canonical_order :
    construct (3/10) ["yz", "xy"] default_shadow_positions = Except.ok c1Base ∧
    (plot_shadows c1State axSym).2 =
      [⟨Prim.scatterP, [0], [3], [4], c1Kwargs⟩, ⟨Prim.scatterP, [2], [3], [0], c1Kwargs⟩] ∧
    (plot_shadows c1State axSym).2.map (fun c => c.x) ≠ [[2], [0]] := by
  refine ⟨rfl, ?_, ?_⟩
  · have h : (plot_shadows c1State axSym).2 =
        [⟨Prim.scatterP, [0], [3], [4], [("alpha", KwVal.num (1 * (3/10))), ("color", KwVal.str "gray")]⟩,
         ⟨Prim.scatterP, [2], [3], [0], [("alpha", KwVal.num (1 * (3/10))), ("color", KwVal.str "gray")]⟩] := rfl
    rw [h, one_mul]
    rfl
  · decide

/-- Claim C1 as amended: for a projector whose active plane list contains more
than one plane and passed construction validation, the shadows of each stored
submission are evaluated and drawn in the order the planes were listed at
construction, one draw call per list entry, not in a fixed canonical order. -/
theorem C1_theorem_planes_in_listed_order (st : Plot3DShadows) (ax : AxisState)
    (d : DataRec) (prim : Prim) (h : ∀ p ∈ st.shadow_planes, p ∈ valid_planes)
    (_hlen : 1 < st.shadow_planes.length) :
    plot_shadow_for_data st ax d prim =
      st.shadow_planes.map (mkShadowCall st ax d prim (prepare_shadow_kwargs st d)) :=
  planes_all_valid_draws st ax d prim h

/-- Witness for C1: the amended order theorem applied to the concrete
yz-before-xy projector. -/
theorem C1_witness_planes_in_listed_order :
    plot_shadow_for_data c1State axSym ⟨[2], [3], [4], none, []⟩ Prim.scatterP =
      c1State.shadow_planes.map (mkShadowCall c1State axSym ⟨[2], [3], [4], none, []⟩
        Prim.scatterP (prepare_shadow_kwargs c1State ⟨[2], [3], [4], none, []⟩)) :=
  C1_theorem_planes_in_listed_order c1State axSym ⟨[2], [3], [4], none, []⟩ Prim.scatterP
    (by decide) (by decide)

/-- Claim C9: `plot_shadows` never modifies the projector state: the stored
submission records, the plane list, the position map and the default ratio
after the call are exactly the state before it. -/
theorem C9_theorem_render_preserves_state (st : Plot3DShadows) (ax : AxisState) :
    (plot_shadows st ax).1 = st := by
  unfold plot_shadows
  rw [foldl_shadowStep]

/-- Claim C2, counterexample: updating with the plane key ab and a valid
position value succeeds and stores the key, and construction with such a
positions map succeeds as well, so the stored key set is not a subset of
the valid plane names. -/
theorem C2_counterexample_unvalidated_plane_key :
    set_shadow_positions defaultProj [("ab", "min")] =
      Except.ok ⟨3/10, ["xy", "xz", "yz"],
        [("xy", "min"), ("xz", "min"), ("yz", "min"), ("ab", "min")], [], []⟩ ∧
    construct (3/10) ["xy"] [("ab", "min")] =
      Except.ok ⟨3/10, ["xy"], [("ab", "min")], [], []⟩ ∧
    "ab" ∉ valid_planes :=
  ⟨rfl, rfl, by decide⟩

/-- Claim C2 as amended: construction validates the plane-list entries and the
position-map values, and `set_shadow_positions` validates only the position
values; position-map keys are never validated, so either operation succeeds
for every key set whenever all values are in the valid set, and the stored
plane-position keys need not stay inside the valid plane names. -/
theorem C2_theorem_only_values_validated (st : Plot3DShadows) (ps : StrDict)
    (ratio : ℚ) (planes : List String) (positions : StrDict) :
    (exceptIsOk (set_shadow_positions st ps) = true ↔
      ∀ pr ∈ ps, pr.2 ∈ valid_positions) ∧
    (exceptIsOk (construct ratio planes positions) = true ↔
      ((∀ p ∈ planes, p ∈ valid_planes) ∧ ∀ pr ∈ positions, pr.2 ∈ valid_positions)) := by
  constructor
  · unfold set_shadow_positions
    cases hf : ps.find? (fun pr => !(decide (pr.2 ∈ valid_positions))) with
    | some a =>
      apply iff_of_false
      · simp [exceptIsOk]
      · intro hall
        have hmem := List.mem_of_find?_eq_some hf
        have hp := List.find?_some hf
        exact absurd (hall a hmem) (by simpa using hp)
    | none =>
      apply iff_of_true
      · rfl
      · intro a hmem
        simpa using List.find?_eq_none.mp hf a hmem
  · unfold construct
    cases hf : planes.find? (fun p => !(decide (p ∈ valid_planes))) with
    | some a =>
      apply iff_of_false
      · simp [exceptIsOk]
      · rintro ⟨hpl, _⟩
        have hmem := List.mem_of_find?_eq_some hf
        have hp := List.find?_some hf
        exact absurd (hpl a hmem) (by simpa using hp)
    | none =>
      cases hg : positions.find? (fun pr => !(decide (pr.2 ∈ valid_positions))) with
      | some a =>
        apply iff_of_false
        · simp [exceptIsOk]
        · rintro ⟨_, hpos⟩
          have hmem := List.mem_of_find?_eq_some hg
          have hp := List.find?_some hg
          exact absurd (hpos a hmem) (by simpa using hp)
      | none =>
        apply iff_of_true
        · rfl
        · constructor
          · intro p hmem
            simpa using List.find?_eq_none.mp hf p hmem
          · intro pr hmem
            simpa using List.find?_eq_none.mp hg pr hmem

/-- Claim C5: `set_shadow_positions` is all-or-nothing: any entry with an
invalid position value makes the whole call raise, producing no updated state,
and a call whose entries are all valid merges them into the position map while
every key not mentioned keeps its prior value and every other component of the
state is untouched. -/
theorem C5_theorem_set_positions_all_or_nothing (st : Plot3DShadows) (ps : StrDict) :
    ((∃ pr ∈ ps, pr.2 ∉ valid_positions) →
      set_shadow_positions st ps = Except.error "Invalid shadow position") ∧
    ((∀ pr ∈ ps, pr.2 ∈ valid_positions) →
      ∃ st2, set_shadow_positions st ps = Except.ok st2 ∧
        st2.shadow_positions = dupdate st.shadow_positions ps ∧
        (∀ k, k ∉ ps.map Prod.fst →
          dget st2.shadow_positions k = dget st.shadow_positions k) ∧
        st2.shadow_alpha_ratio = st.shadow_alpha_ratio ∧
        st2.shadow_planes = st.shadow_planes ∧
        st2.scatter_data = st.scatter_data ∧
        st2.plot_data = st.plot_data) := by
  constructor
  · rintro ⟨pr, hmem, hinv⟩
    unfold set_shadow_positions
    cases hf : ps.find? (fun pr => !(decide (pr.2 ∈ valid_positions))) with
    | some a => rfl
    | none =>
      exact absurd (by simpa using List.find?_eq_none.mp hf pr hmem) hinv
  · intro hall
    unfold set_shadow_positions
    have hf : ps.find? (fun pr => !(decide (pr.2 ∈ valid_positions))) = none :=
      List.find?_eq_none.mpr (fun a hmem => by simpa using hall a hmem)
    rw [hf]
    exact ⟨_, rfl, rfl, fun k hk => dget_dupdate_not_mem st.shadow_positions ps k hk,
      rfl, rfl, rfl, rfl⟩

/-- Witness for C5: a call with the invalid value sideways raises, and a call
setting xy to max leaves the xz entry at its prior value. -/
theorem C5_witness_set_positions :
    set_shadow_positions defaultProj [("xy", "sideways")] =
      Except.error "Invalid shadow position" ∧
    ∃ st2, set_shadow_positions defaultProj [("xy", "max")] = Except.ok st2 ∧
      dget st2.shadow_positions "xz" = dget defaultProj.shadow_positions "xz" := by
  constructor
  · exact (C5_theorem_set_positions_all_or_nothing defaultProj [("xy", "sideways")]).1
      ⟨("xy", "sideways"), by decide, by decide⟩
  · obtain ⟨st2, hok, _, hpres, _⟩ :=
      (C5_theorem_set_positions_all_or_nothing defaultProj [("xy", "max")]).2 (by decide)
    exact ⟨st2, hok, hpres "xz" (by decide)⟩

/-- Claim C6, failing scenario: two projectors constructed with default
arguments alias the one default `shadow_positions` dict, so
`set_shadow_positions` on the first is visible when the second reads its
positions: before the call the second projector reads min for xy, afterwards
it reads max. -/
theorem C6_theorem_default_positions_shared :
    dget (readPositions initWorld secondDefaultProjRef) "xy" = some "min" ∧
    set_shadow_positions_ref initWorld firstDefaultProjRef [("xy", "max")] =
      Except.ok ⟨[[("xy", "max"), ("xz", "min"), ("yz", "min")]]⟩ ∧
    dget (readPositions ⟨[[("xy", "max"), ("xz", "min"), ("yz", "min")]]⟩
      secondDefaultProjRef) "xy" = some "max" :=
  ⟨rfl, rfl, rfl⟩

/-- Claim C7: each submission entry point issues exactly the one draw call
with the given coordinates and style unmodified, appends one record whose
stored coordinates equal the input and whose stored color key equals the
input color key, and changes nothing else. -/
theorem C7_theorem_submit_draws_and_appends (st : Plot3DShadows) (x y z : List ℚ)
    (r : Option ℚ) (kwargs : Kwargs) :
    (st.scatter x y z r kwargs).2 = ⟨Prim.scatterP, x, y, z, kwargs⟩ ∧
    (st.scatter x y z r kwargs).1.scatter_data =
      st.scatter_data ++ [⟨x, y, z, r, kwargs⟩] ∧
    (st.scatter x y z r kwargs).1.plot_data = st.plot_data ∧
    ((st.scatter x y z r kwargs).1.scatter_data.getLast?).map
      (fun d => ((d.x, d.y, d.z), dget d.kwargs "color")) =
      some ((x, y, z), dget kwargs "color") ∧
    (st.plot x y z r kwargs).2 = ⟨Prim.plotP, x, y, z, kwargs⟩ ∧
    (st.plot x y z r kwargs).1.plot_data = st.plot_data ++ [⟨x, y, z, r, kwargs⟩] ∧
    (st.plot x y z r kwargs).1.scatter_data = st.scatter_data ∧
    ((st.plot x y z r kwargs).1.plot_data.getLast?).map
      (fun d => ((d.x, d.y, d.z), dget d.kwargs "color")) =
      some ((x, y, z), dget kwargs "color") := by
  refine ⟨rfl, rfl, rfl, ?_, rfl, rfl, rfl, ?_⟩ <;>
    simp [Plot3DShadows.scatter, Plot3DShadows.plot, List.getLast?_concat]

theorem dget_cons {α : Type} (hd : String × α) (tl : List (String × α)) (k : String) :
    dget (hd :: tl) k = if hd.1 == k then some hd.2 else dget tl k := by
  by_cases h : hd.1 == k
  · unfold dget
    rw [List.find?_cons_of_pos tl h, if_pos h]
    rfl
  · unfold dget
    rw [List.find?_cons_of_neg tl (by simpa using h), if_neg h]

theorem dpop_cons {α : Type} (hd : String × α) (tl : List (String × α)) (k : String) :
    dpop (hd :: tl) k = if hd.1 == k then dpop tl k else hd :: dpop tl k := by
  unfold dpop
  by_cases h : hd.1 == k
  · simp [List.filter_cons, bne, h]
  · simp [List.filter_cons, bne, h]

theorem dget_dpop_ne {α : Type} (d : List (String × α)) (k k2 : String)
    (hne : k2 ≠ k) : dget (dpop d k) k2 = dget d k2 := by
  induction d with
  | nil => rfl
  | cons hd tl ih =>
    rw [dpop_cons]
    by_cases h1 : hd.1 == k
    · have hk2 : (hd.1 == k2) = false := by
        have h1e : hd.1 = k := by simpa using h1
        rw [h1e]
        exact beq_eq_false_iff_ne.mpr (Ne.symm hne)
      rw [if_pos h1, ih, dget_cons, hk2]
      simp
    · rw [if_neg h1, dget_cons, dget_cons, ih]

/-- The alpha entry written by `prepare_shadow_kwargs` is the original alpha
times the effective ratio, surviving the later color handling. -/
theorem dget_prepare_alpha (st : Plot3DShadows) (d : DataRec) :
    dget (prepare_shadow_kwargs st d) "alpha" =
      some (KwVal.num (getAlphaNum d.kwargs *
        d.shadow_alpha_ratio.getD st.shadow_alpha_ratio)) := by
  unfold prepare_shadow_kwargs
  cases hc : dget (dset d.kwargs "alpha" (KwVal.num (getAlphaNum d.kwargs *
      d.shadow_alpha_ratio.getD st.shadow_alpha_ratio))) "c" with
  | some cv =>
    simp only [hc]
    rw [dget_dset_ne _ _ _ _ (by decide), dget_dpop_ne _ _ _ (by decide)]
    exact dget_dset_self _ _ _
  | none =>
    simp only [hc]
    rw [dget_dset_ne _ _ _ _ (by decide)]
    exact dget_dset_self _ _ _

/-- Claim C3: the effective shadow alpha written into the shadow kwargs is
the original alpha times the per-submission ratio when set, else the
projector ratio; and a projector with default ratio 0.3, planes xy, xz, yz
and one scatter submission of opacity 1.0 issues exactly three shadow draw
calls, each of alpha 0.3, with exactly one coordinate array replaced by the
constant min bound of the orthogonal axis and the other two passed through. -/
theorem C3_theorem_shadow_opacity_and_projection (st : Plot3DShadows) (d : DataRec)
    (x y z : List ℚ) (ax : AxisState) :
    dget (prepare_shadow_kwargs st d) "alpha" =
      some (KwVal.num (getAlphaNum d.kwargs *
        d.shadow_alpha_ratio.getD st.shadow_alpha_ratio)) ∧
    (plot_shadows ⟨3/10, ["xy", "xz", "yz"], default_shadow_positions,
        [⟨x, y, z, none, [("alpha", KwVal.num 1)]⟩], []⟩ ax).2 =
      [⟨Prim.scatterP, x, y, full_like z ax.z_min,
        [("alpha", KwVal.num (3/10)), ("color", KwVal.str "gray")]⟩,
       ⟨Prim.scatterP, x, full_like y ax.y_min, z,
        [("alpha", KwVal.num (3/10)), ("color", KwVal.str "gray")]⟩,
       ⟨Prim.scatterP, full_like x ax.x_min, y, z,
        [("alpha", KwVal.num (3/10)), ("color", KwVal.str "gray")]⟩] := by
  refine ⟨dget_prepare_alpha st d, ?_⟩
  have h : (plot_shadows ⟨3/10, ["xy", "xz", "yz"], default_shadow_positions,
        [⟨x, y, z, none, [("alpha", KwVal.num 1)]⟩], []⟩ ax).2 =
      [⟨Prim.scatterP, x, y, full_like z ax.z_min,
        [("alpha", KwVal.num (1 * (3/10))), ("color", KwVal.str "gray")]⟩,
       ⟨Prim.scatterP, x, full_like y ax.y_min, z,
        [("alpha", KwVal.num (1 * (3/10))), ("color", KwVal.str "gray")]⟩,
       ⟨Prim.scatterP, full_like x ax.x_min, y, z,
        [("alpha", KwVal.num (1 * (3/10))), ("color", KwVal.str "gray")]⟩] := rfl
  rw [h, one_mul]

/-- Claim C4: with every axis ranging over -5 to 5, a submitted path at the
origin and active plane xy at position min produce exactly one shadow draw
call, at coordinates (0, 0, -5). -/
theorem C4_theorem_path_origin_xy_min :
    construct (3/10) ["xy"] default_shadow_positions = Except.ok c4Base ∧
    (plot_shadows c4State ax55).2 =
      [⟨Prim.plotP, [0], [0], [-5],
        [("alpha", KwVal.num (3/10)), ("color", KwVal.str "gray")]⟩] := by
  refine ⟨rfl, ?_⟩
  have h : (plot_shadows c4State ax55).2 =
      [⟨Prim.plotP, [0], [0], [-5],
        [("alpha", KwVal.num (1 * (3/10))), ("color", KwVal.str "gray")]⟩] := rfl
  rw [h, one_mul]

theorem length_flatten_map_const {α β : Type} (l : List α) (f : α → List β) (n : ℕ)
    (h : ∀ a ∈ l, (f a).length = n) : ((l.map f).flatten).length = l.length * n := by
  induction l with
  | nil => simp
  | cons hd tl ih =>
    simp only [List.map_cons, List.flatten_cons, List.length_append, List.length_cons]
    rw [h hd (by simp), ih (fun a ha => h a (by simp [ha]))]
    ring

/-- Claim C8: with validated planes, the shadow pass draws all scatter
submissions first, in submission order, then all plot submissions, in
submission order, one draw call per submission and plane-list entry; with a
duplicate-free plane list this is one call per (submission, active plane)
pair, totalling submissions times planes. -/
theorem C8_theorem_scatter_shadows_first (st : Plot3DShadows) (ax : AxisState)
    (h : ∀ p ∈ st.shadow_planes, p ∈ valid_planes) :
    (plot_shadows st ax).2 =
      (st.scatter_data.map (fun d => st.shadow_planes.map
        (mkShadowCall st ax d Prim.scatterP (prepare_shadow_kwargs st d)))).flatten ++
      (st.plot_data.map (fun d => st.shadow_planes.map
        (mkShadowCall st ax d Prim.plotP (prepare_shadow_kwargs st d)))).flatten ∧
    (plot_shadows st ax).2.length =
      (st.scatter_data.length + st.plot_data.length) * st.shadow_planes.length := by
  have hmain : (plot_shadows st ax).2 =
      (st.scatter_data.map (fun d => st.shadow_planes.map
        (mkShadowCall st ax d Prim.scatterP (prepare_shadow_kwargs st d)))).flatten ++
      (st.plot_data.map (fun d => st.shadow_planes.map
        (mkShadowCall st ax d Prim.plotP (prepare_shadow_kwargs st d)))).flatten := by
    rw [plot_shadows_snd]
    rw [List.map_congr_left (fun d _ => planes_all_valid_draws st ax d Prim.scatterP h),
      List.map_congr_left (fun d _ => planes_all_valid_draws st ax d Prim.plotP h)]
  refine ⟨hmain, ?_⟩
  rw [hmain, List.length_append,
    length_flatten_map_const st.scatter_data _ st.shadow_planes.length
      (fun d _ => by simp),
    length_flatten_map_const st.plot_data _ st.shadow_planes.length
      (fun d _ => by simp),
    Nat.add_mul]

/-- Witness for C8: the draw-order theorem applied to a projector with one
scatter and one plot submission and the three default planes: six calls. -/
theorem C8_witness_scatter_shadows_first :
    (∀ p ∈ demoState.shadow_planes, p ∈ valid_planes) ∧
    (plot_shadows demoState ax55).2.length =
      (demoState.scatter_data.length + demoState.plot_data.length) *
        demoState.shadow_planes.length :=
  ⟨by decide, (C8_theorem_scatter_shadows_first demoState ax55 (by decide)).2⟩

/-- Claim C10: construction accepts duplicate valid plane names, and each
stored submission is then shadowed once per occurrence in the plane list. -/
theorem C10_theorem_duplicate_planes (ratio : ℚ) (planes : List String)
    (positions : StrDict)
    (hpl : ∀ p ∈ planes, p ∈ valid_planes)
    (hpos : ∀ pr ∈ positions, pr.2 ∈ valid_positions) :
    ∃ st, construct ratio planes positions = Except.ok st ∧
      st.shadow_planes = planes ∧
      ∀ ax d prim, plot_shadow_for_data st ax d prim =
        planes.map (mkShadowCall st ax d prim (prepare_shadow_kwargs st d)) := by
  have hf : planes.find? (fun p => !(decide (p ∈ valid_planes))) = none :=
    List.find?_eq_none.mpr (fun a hmem => by simpa using hpl a hmem)
  have hg : positions.find? (fun pr => !(decide (pr.2 ∈ valid_positions))) = none :=
    List.find?_eq_none.mpr (fun a hmem => by simpa using hpos a hmem)
  unfold construct
  rw [hf, hg]
  refine ⟨_, rfl, rfl, ?_⟩
  intro ax d prim
  exact planes_all_valid_draws _ ax d prim hpl

/-- Witness for C10: the plane xy listed twice passes construction and each
submission gets two xy shadow calls. -/
theorem C10_witness_duplicate_planes :
    (∀ p ∈ ["xy", "xy"], p ∈ valid_planes) ∧
    ∃ st, construct (3/10) ["xy", "xy"] default_shadow_positions = Except.ok st ∧
      st.shadow_planes = ["xy", "xy"] ∧
      ∀ ax d prim, plot_shadow_for_data st ax d prim =
        ["xy", "xy"].map (mkShadowCall st ax d prim (prepare_shadow_kwargs st d)) :=
  ⟨by decide, C10_theorem_duplicate_planes (3/10) ["xy", "xy"] default_shadow_positions
    (by decide) (by decide)⟩
